import Mathlib

/-!
Verification of the hdresearch typescript SDK ("computer control" client).

The development shallowly embeds the parts of the SDK that the verified
properties are about:

* the zod action schemas (`src/lib/schemas/*.ts`) as boolean matchers over a
  JSON value universe, together with the two-stage validation performed by
  `handleToolRequest` in `src/lib/anthropic.ts`;
* `makeToolResult` (`src/lib/tools.ts`) and the tool-dispatch / orchestration
  loop `useComputer` (`src/lib/anthropic.ts`, plus the historical snapshot in
  `src/unnamed/part_002`);
* the `Computer` session state machine (`src/lib/computer.ts`): connection
  state, the `connect` / `execute` promises, the per-message handlers and the
  machine-metadata handshake extraction (`handleConnectionMessage`);
* the conversation logger record construction
  (`src/lib/utils/computerLogger.ts`).

JSON numbers are modeled as integers: none of the verified properties depends
on fractional numeric payloads, so the `.int()` refinements of the zod schemas
are represented by the `num` constructor itself.
-/

/-- A JSON value, the universe over which the zod schemas of the SDK operate.
Object fields are an ordered association list; JavaScript objects cannot carry
duplicate keys, so lookup of the first matching key is faithful. -/
inductive Json where
  | null
  | bool (b : Bool)
  | num (n : Int)
  | str (s : String)
  | arr (elems : List Json)
  | obj (fields : List (String × Json))

/-- First-match lookup of a key in the field list of a JSON object. -/
def lookupField : List (String × Json) → String → Option Json
  | [], _ => none
  | (k, v) :: rest, key => if k = key then some v else lookupField rest key

/-- Field access on a JSON value: `none` when the value is not an object or
the field is absent (zod object schemas fail on both). -/
def Json.getField : Json → String → Option Json
  | .obj fields, key => lookupField fields key
  | _, _ => none

/-- Whether a JSON value is an object (what `z.record(z.string(), z.any())`
accepts: any plain object, arbitrary values). -/
def Json.isObj : Json → Bool
  | .obj _ => true
  | _ => false

/-- Embedding of `z.literal(lit)` applied to a (possibly missing) object field. -/
def isLiteral (lit : String) : Option Json → Bool
  | some (.str s) => decide (s = lit)
  | _ => false

/-- Embedding of `z.string()` applied to a required object field. -/
def isStrOpt : Option Json → Bool
  | some (.str _) => true
  | _ => false

/-- Embedding of `z.string().min(1)` applied to a required object field. -/
def nonEmptyStrOpt : Option Json → Bool
  | some (.str s) => !s.isEmpty
  | _ => false

/-- Embedding of `z.number()` applied to a required object field. -/
def isNumOpt : Option Json → Bool
  | some (.num _) => true
  | _ => false

/-- Embedding of `z.record(z.string(), z.any())` applied to a required object field. -/
def isRecordOpt : Option Json → Bool
  | some (.obj _) => true
  | _ => false

/-- An optional field (`.optional()`): absent is fine, present must match. -/
def optionalOk (f : Json → Bool) : Option Json → Bool
  | none => true
  | some v => f v

/-- Embedding of `z.tuple([z.number().int(), z.number().int()])` on a required field. -/
def isTwoIntTuple : Option Json → Bool
  | some (.arr [.num _, .num _]) => true
  | _ => false

/-- Element check for `z.array(z.number())`. -/
def isNumJson : Json → Bool
  | .num _ => true
  | _ => false

/-- Embedding of `z.array(z.number())` (the `view_range` field). -/
def isNumArray : Json → Bool
  | .arr elems => elems.all isNumJson
  | _ => false

/-- Embedding of `z.string()` as a bare value check (optional `new_str`). -/
def isStrJson : Json → Bool
  | .str _ => true
  | _ => false

/-- The `params` object of `BashAction` (`src/lib/schemas/bashAction.ts`):
`z.object({ command: z.string().min(1) })`. -/
def bashParamsOk : Option Json → Bool
  | some p => nonEmptyStrOpt (p.getField "command")
  | none => false

/-- Embedding of `BashAction` (`src/lib/schemas/bashAction.ts`): tool literal `bash` plus
the params object. -/
def bashMatches (v : Json) : Bool :=
  isLiteral "bash" (v.getField "tool") && bashParamsOk (v.getField "params")

/-- Embedding of `ComputerParams` (`src/lib/schemas/computerActions.ts`): discriminated
union on the `action` field. -/
def computerParamsMatches (p : Json) : Bool :=
  match p.getField "action" with
  | some (.str a) =>
    match a with
    | "mouse_move" => isTwoIntTuple (p.getField "coordinate")
    | "left_click_drag" => isTwoIntTuple (p.getField "coordinates")
    | "cursor_position" => true
    | "left_click" => true
    | "right_click" => true
    | "middle_click" => true
    | "double_click" => true
    | "key" => nonEmptyStrOpt (p.getField "text")
    | "type" => nonEmptyStrOpt (p.getField "text")
    | "screenshot" => true
    | _ => false
  | _ => false

/-- The `params` field of `ComputerAction`. -/
def computerParamsOk : Option Json → Bool
  | some p => computerParamsMatches p
  | none => false

/-- Embedding of `ComputerAction` (`src/lib/schemas/computerActions.ts`). -/
def computerMatches (v : Json) : Bool :=
  isLiteral "computer" (v.getField "tool") && computerParamsOk (v.getField "params")

/-- Embedding of `EditParams` (`src/lib/schemas/editActions.ts`): discriminated union on
the `command` field. -/
def editParamsMatches (p : Json) : Bool :=
  match p.getField "command" with
  | some (.str c) =>
    match c with
    | "view" => isStrOpt (p.getField "path") && optionalOk isNumArray (p.getField "view_range")
    | "create" => isStrOpt (p.getField "path") && isStrOpt (p.getField "file_text")
    | "str_replace" =>
        isStrOpt (p.getField "path") && isStrOpt (p.getField "old_str")
          && optionalOk isStrJson (p.getField "new_str")
    | "insert" =>
        isStrOpt (p.getField "path") && isNumOpt (p.getField "insert_line")
          && isStrOpt (p.getField "new_str")
    | "undo_edit" => isStrOpt (p.getField "path")
    | _ => false
  | _ => false

/-- The `params` field of `EditAction`. -/
def editParamsOk : Option Json → Bool
  | some p => editParamsMatches p
  | none => false

/-- Embedding of `EditAction` (`src/lib/schemas/editActions.ts`): tool literal
`str_replace_editor` plus the edit params. -/
def editMatches (v : Json) : Bool :=
  isLiteral "str_replace_editor" (v.getField "tool") && editParamsOk (v.getField "params")

/-- Success of `Action.safeParse` (`src/lib/schemas/action.ts`):
`z.union([BashAction, ComputerAction, EditAction])` succeeds when any variant
does. -/
def actionMatches (v : Json) : Bool :=
  bashMatches v || computerMatches v || editMatches v

/-- Success of `UnknownAction.safeParse` (`src/lib/schemas/unknownAction.ts`):
`z.object({ tool: z.string().min(1), params: z.record(z.string(), z.any()) })`. -/
def unknownMatches (v : Json) : Bool :=
  nonEmptyStrOpt (v.getField "tool") && isRecordOpt (v.getField "params")

/-- Outcome of the two-stage validation in `handleToolRequest`
(`src/lib/anthropic.ts`): fixed-action union, permissive extension schema, or
terminal failure. -/
inductive ParseOutcome where
  | action
  | extension
  | failure
  deriving DecidableEq, Repr

/-- The two-stage validation order of `handleToolRequest`
(`src/lib/anthropic.ts` lines 138-186): try `Action.safeParse` first, then
`UnknownAction.safeParse`, and only then report a terminal failure. -/
def validate (v : Json) : ParseOutcome :=
  if actionMatches v then .action
  else if unknownMatches v then .extension
  else .failure

/-- The payload `{ tool: block.name, params: block.input }` that
`handleToolRequest` assembles from a tool-use block before validation. -/
def payloadOf (name : String) (input : Json) : Json :=
  .obj [("tool", .str name), ("params", input)]

/-- Embedding of `ToolResult` (`src/lib/types.ts`): the result portion of a computer
message; every field is a nullable string. -/
structure ToolResult where
  output : Option String
  error : Option String
  base64_image : Option String
  system : Option String
  deriving Repr, DecidableEq

/-- JavaScript truthiness of a `string | null` value: `null`, `undefined` and
the empty string are falsy. -/
def strTruthy : Option String → Bool
  | some s => !s.isEmpty
  | none => false

/-- A content entry of a tool-result block (`TextContent` / `ImageContent` in
`src/lib/tools.ts`). -/
inductive ContentItem where
  | text (t : String)
  | image (base64 : String)
  deriving Repr, DecidableEq

/-- The `content` of a tool-result block: either a list of text/image items
(`makeToolResult`) or the `JSON.stringify(result.content)` string produced on
the MCP dispatch path of `handleToolRequest`. -/
inductive BlockContent where
  | items (entries : List ContentItem)
  | jsonText (s : String)
  deriving Repr, DecidableEq

/-- Embedding of `BetaToolResultBlockParam` as constructed by the SDK. `is_error` is
`Option Bool` because the MCP path of `handleToolRequest` leaves it
`undefined` when the MCP result is not an error. -/
structure ToolResultBlock where
  tool_use_id : String
  content : BlockContent
  is_error : Option Bool
  deriving Repr, DecidableEq

/-- The non-error content of `makeToolResult` (`src/lib/tools.ts`): the output
text if truthy, followed by the base64 image if truthy. -/
def nonErrorContent (result : ToolResult) : List ContentItem :=
  (match result.output with
    | some o => if !o.isEmpty then [ContentItem.text o] else []
    | none => []) ++
  (match result.base64_image with
    | some b => if !b.isEmpty then [ContentItem.image b] else []
    | none => [])

/-- Embedding of `makeToolResult` (`src/lib/tools.ts` lines 62-100): an error result (when
`result.error` is truthy) carries exactly the error text and `is_error = true`;
otherwise the content is the truthy output text followed by the truthy image,
with `is_error = false`. -/
def makeToolResult (result : ToolResult) (toolUseId : String) : ToolResultBlock :=
  match result.error with
  | some e =>
    if !e.isEmpty then
      { tool_use_id := toolUseId, content := .items [ContentItem.text e], is_error := some true }
    else
      { tool_use_id := toolUseId, content := .items (nonErrorContent result), is_error := some false }
  | none =>
      { tool_use_id := toolUseId, content := .items (nonErrorContent result), is_error := some false }

/-- Embedding of `convertToolResult`, the name under which `src/lib/anthropic.ts` imports
the converter from `./tools`; it is the `makeToolResult` defined there. -/
def convertToolResult : ToolResult → String → ToolResultBlock := makeToolResult

/-- A `tool_use` content block from an oracle turn (name, structured input and
the correlation id). -/
structure ToolUseBlock where
  id : String
  name : String
  input : Json

/-- An MCP tool invocation result as consumed by `handleToolRequest`:
the stringified content and the `isError` flag. -/
structure McpResult where
  content : String
  isError : Bool
  deriving Repr, DecidableEq

/-- The external collaborators of the orchestration loop: the remote computer
(`computer.execute`, keyed by the validated payload) and the MCP side channel
(`computer.callMcpTool`). -/
structure Dispatch where
  exec : Json → ToolResult
  mcp : String → Json → McpResult

/-- Embedding of `handleToolRequest` (`src/lib/anthropic.ts` lines 138-186): try the fixed
action union; then the permissive extension schema (dispatching to the MCP
side channel); otherwise synthesize the error result
`Tool <name> failed is invalid`. -/
def handleToolRequest (env : Dispatch) (block : ToolUseBlock) : ToolResultBlock :=
  let payload := payloadOf block.name block.input
  if actionMatches payload then
    convertToolResult (env.exec payload) block.id
  else if unknownMatches payload then
    let result := env.mcp block.name block.input
    { tool_use_id := block.id,
      content := .jsonText result.content,
      is_error := if result.isError then some true else none }
  else
    convertToolResult
      { output := none,
        error := some ("Tool " ++ block.name ++ " failed is invalid"),
        base64_image := none,
        system := none } block.id

/-- A content item of an oracle turn: narrative text or a tool-call intent. -/
inductive ContentBlock where
  | text (t : String)
  | toolUse (block : ToolUseBlock)

/-- Whether a content item is a tool-call intent. -/
def ContentBlock.isToolUse : ContentBlock → Bool
  | .toolUse _ => true
  | _ => false

/-- An oracle turn: the ordered content of one oracle response. -/
abbrev OracleTurn := List ContentBlock

/-- The tool-call intents of a turn, in order. -/
def toolUseBlocks (turn : OracleTurn) : List ToolUseBlock :=
  turn.filterMap (fun c =>
    match c with
    | .toolUse b => some b
    | .text _ => none)

/-- Whether the turn contains at least one tool-call intent. -/
def hasToolCalls (turn : OracleTurn) : Bool :=
  turn.any ContentBlock.isToolUse

/-- The `content` of a `user` conversation message: the initial task string or
a tool-result turn. -/
inductive UserContent where
  | task (t : String)
  | results (rs : List ToolResultBlock)

/-- A conversation message (`BetaMessageParam`). -/
inductive Message where
  | user (content : UserContent)
  | assistant (turn : OracleTurn)

/-- The per-turn tool dispatch of the loop body in `useComputer`
(`src/lib/anthropic.ts` lines 93-104): walk the oracle turn in order and push
one result per `tool_use` block. -/
def processTurn (env : Dispatch) (turn : OracleTurn) : List ToolResultBlock :=
  turn.foldl
    (fun acc c =>
      match c with
      | .toolUse b => acc ++ [handleToolRequest env b]
      | .text _ => acc) []

/-- The main interaction loop of `useComputer` (`src/lib/anthropic.ts` lines
78-122), with the oracle modeled as a pre-determined script of turns consumed
one per iteration. `none` models the situation where the script is exhausted
before the loop terminates (the oracle is external and the loop would keep
querying it). -/
def useComputerLoop (env : Dispatch) : List OracleTurn → List Message → Option (List Message)
  | [], _ => none
  | turn :: rest, messages =>
    if (processTurn env turn).length > 0 then
      useComputerLoop env rest
        (messages ++ [Message.assistant turn] ++
          [Message.user (.results (processTurn env turn))])
    else
      some (messages ++ [Message.assistant turn])

/-- Embedding of `useComputer` (`src/lib/anthropic.ts` lines 52-129): seed the conversation
with the task of the user, then run the interaction loop. -/
def useComputer (env : Dispatch) (task : String) (script : List OracleTurn) :
    Option (List Message) :=
  useComputerLoop env script [Message.user (.task task)]

/-- The value produced by the historical `useComputer` snapshot in
`src/unnamed/part_002`: either the conversation returned by the
`return messages` statement inside the `while` body, or `undefined` when the
loop exits through `break` and control falls off the end of the function. -/
inductive SnapshotExit where
  | earlyReturn (messages : List Message)
  | fellThrough

/-- The `useComputer` loop of the historical snapshot `src/unnamed/part_002`
(lines 86-135). Its `while` body ends with `return messages` (line 130), which
is reached whenever the turn produced tool results, so the loop never runs a
second iteration; the zero-tool-call path exits via `break` and the function
then returns `undefined`. (Its `handleToolRequest` returns a singleton array
per block, spread into the accumulator, so per-turn dispatch is `processTurn`
as above.) -/
def useComputerSnapshotLoop (env : Dispatch) : List OracleTurn → List Message →
    Option SnapshotExit
  | [], _ => none
  | turn :: _, messages =>
    if (processTurn env turn).length > 0 then
      some (.earlyReturn
        (messages ++ [Message.assistant turn] ++
          [Message.user (.results (processTurn env turn))]))
    else
      some .fellThrough

/-- The conversation `useComputer` builds when the oracle script starts with
tool-calling turns `pre` and then a turn `t` with zero tool calls: for each
turn of `pre` an assistant message followed by its tool-result turn, then the
final assistant message for `t`. -/
def expectedConversation (env : Dispatch) (task : String) (pre : List OracleTurn)
    (t : OracleTurn) : List Message :=
  Message.user (.task task) ::
    (pre.flatMap (fun p =>
      [Message.assistant p, Message.user (.results (processTurn env p))])
      ++ [Message.assistant t])

/-- Embedding of `MachineMetadata` (`src/lib/types.ts` lines 64-72): the data payload that
is expected to be stringified in `tool_result.system` on connection; every
field is nullable. -/
structure MachineMetadata where
  display_height : Option Int
  display_width : Option Int
  display_num : Option Int
  arch : Option String
  hostname : Option String
  access_token : Option String
  deriving Repr, DecidableEq

/-- A required-but-nullable number field of a zod object (`z.number().nullable()`):
missing or wrongly-typed fields fail the parse. -/
def nullableNumField : Option Json → Option (Option Int)
  | some (.num n) => some (some n)
  | some .null => some none
  | _ => none

/-- A required-but-nullable string field (`z.string().nullable()`). -/
def nullableStrField : Option Json → Option (Option String)
  | some (.str s) => some (some s)
  | some .null => some none
  | _ => none

/-- Embedding of `MachineMetadata.safeParse` (`src/lib/types.ts`): a zod object schema, so
the input must itself be a JSON object carrying all six nullable fields. -/
def parseMachineMetadata (v : Json) : Option MachineMetadata :=
  match v with
  | .obj fields =>
    match nullableNumField (lookupField fields "display_height"),
          nullableNumField (lookupField fields "display_width"),
          nullableNumField (lookupField fields "display_num"),
          nullableStrField (lookupField fields "arch"),
          nullableStrField (lookupField fields "hostname"),
          nullableStrField (lookupField fields "access_token") with
    | some dh, some dw, some dn, some a, some h, some t =>
        some { display_height := dh, display_width := dw, display_num := dn,
               arch := a, hostname := h, access_token := t }
    | _, _, _, _, _, _ => none
  | _ => none

/-- The metadata of a parsed `ComputerMessage` (`src/lib/types.ts`); the two
timestamps are `Date`s, modeled as epoch milliseconds. -/
structure MessageMetadata where
  session_id : String
  message_id : String
  request_timestamp : Int
  response_timestamp : Int
  deriving Repr, DecidableEq

/-- A parsed `ComputerMessage` (`src/lib/types.ts`): every inbound frame is
run through `ComputerMessage.parse`, whose `tool_result.system` field is
`z.string().nullable()` - so by the time `handleConnectionMessage` sees a
message, `system` is a string or null, never an object. -/
structure ComputerMessage where
  raw_input : String
  tool_result : ToolResult
  metadata : MessageMetadata
  deriving Repr, DecidableEq

/-- The JSON value that `message.tool_result.system` denotes when it is handed
to `MachineMetadata.safeParse` in `handleConnectionMessage`: the string itself
(never decoded) or null. -/
def systemPayloadJson : Option String → Json
  | some s => .str s
  | none => .null

/-- A tool descriptor of the session tool set (`bashTool` / `computerTool`
in `src/lib/tools.ts`). -/
structure ToolDescriptor where
  name : String
  ttype : String
  display_height_px : Option Int
  display_width_px : Option Int
  deriving Repr, DecidableEq

/-- Embedding of `bashTool` (`src/lib/tools.ts`). -/
def bashTool : ToolDescriptor :=
  { name := "bash", ttype := "bash_20241022",
    display_height_px := none, display_width_px := none }

/-- Embedding of `computerTool` (`src/lib/tools.ts`), with the placeholder display
geometry that the server is supposed to update on connection. -/
def computerTool : ToolDescriptor :=
  { name := "computer", ttype := "computer_20241022",
    display_height_px := some 768, display_width_px := some 1024 }

/-- The `readyState` of the `ws` WebSocket (`opened` models `WebSocket.OPEN`). -/
inductive WsReadyState where
  | connecting
  | opened
  | closing
  | closed
  deriving Repr, DecidableEq

/-- The state of a single-shot JavaScript promise: once settled, further
`resolve` / `reject` calls are no-ops. -/
inductive PromiseState (α : Type) (ε : Type) where
  | pending
  | resolved (value : α)
  | rejected (err : ε)
  deriving Repr

/-- The observable state of a `Computer` instance (`src/lib/computer.ts`),
including the one-shot promises created by `connect()` and `execute()`.
`ws = none` models `this.ws === null`; `sentLog` records the frames passed to
`ws.send` (what the logging sink sees through `logSend`). -/
structure ComputerState where
  ws : Option WsReadyState
  machineMetadata : Option MachineMetadata
  sessionId : Option String
  updatedAt : Option Int
  tools : List ToolDescriptor
  connectPromise : Option (PromiseState Unit String)
  executePromise : Option (PromiseState ComputerMessage String)
  sentLog : List Json

/-- The state of a freshly constructed `Computer` (constructor of
`src/lib/computer.ts`): no socket, no metadata, default tool set, no promises. -/
def initialComputerState : ComputerState :=
  { ws := none, machineMetadata := none, sessionId := none, updatedAt := none,
    tools := [bashTool, computerTool],
    connectPromise := none, executePromise := none, sentLog := [] }

/-- Embedding of `isConnected` (`src/lib/computer.ts` lines 203-205):
`this.ws?.readyState === WebSocket.OPEN`. -/
def isConnected (s : ComputerState) : Bool :=
  decide (s.ws = some WsReadyState.opened)

/-- Embedding of `resolve()` on the `connect()` promise (no-op once settled). -/
def resolveConnect : Option (PromiseState Unit String) → Option (PromiseState Unit String)
  | some .pending => some (.resolved ())
  | p => p

/-- Embedding of `reject(err)` on the `connect()` promise (no-op once settled). -/
def rejectConnect (err : String) :
    Option (PromiseState Unit String) → Option (PromiseState Unit String)
  | some .pending => some (.rejected err)
  | p => p

/-- Embedding of `handleConnectionMessage` (`src/lib/computer.ts` lines 106-123): attempt
`MachineMetadata.safeParse(message.tool_result.system)`; on success store the
metadata and session id and swap the `computerTool` descriptor for one with
the real display geometry; on failure leave the state untouched. -/
def handleConnectionMessage (s : ComputerState) (message : ComputerMessage) :
    ComputerState :=
  match parseMachineMetadata (systemPayloadJson message.tool_result.system) with
  | some machineMetadata =>
    { s with
      machineMetadata := some machineMetadata,
      sessionId := some message.metadata.session_id,
      tools :=
        (s.tools.filter (fun t => !decide (t = computerTool))) ++
          [{ computerTool with
              display_height_px := some (machineMetadata.display_height.getD 0),
              display_width_px := some (machineMetadata.display_width.getD 0) }] }
  | none => s

/-- The class-level `onMessage` handler (`src/lib/computer.ts` lines 88-94):
update the last-activity timestamp from the response timestamp of the frame, log,
and feed the frame to the handshake extractor. -/
def onMessage (s : ComputerState) (message : ComputerMessage) : ComputerState :=
  handleConnectionMessage
    { s with updatedAt := some message.metadata.response_timestamp } message

/-- A WebSocket event delivered to the emitter of the `Computer`. The payload of a
`message` event is the parsed `ComputerMessage` (both the class handler and
the one-shot listener of `execute` run it through `parseMessage`). -/
inductive WsEvent where
  | opened
  | message (m : ComputerMessage)
  | error (msg : String)
  | close (code : Int) (reason : String)

/-- Whether an event is an inbound frame. -/
def WsEvent.isMessage : WsEvent → Bool
  | .message _ => true
  | _ => false

/-- One step of the `Computer` event machine (`src/lib/computer.ts` lines
125-150 for the `ws.on` handlers, 165-179 for the one-shot listener of `execute`):

* `opened` - the socket becomes OPEN and the pending `connect()` promise
  resolves;
* `message` - the class handler runs (timestamp, logging, handshake
  extraction), then the one-shot listener of `execute`, if registered, resolves the
  pending `execute()` promise with the parsed frame and removes itself;
* `error` - `onError` logs and the pending `connect()` promise rejects;
* `close` - the socket becomes CLOSED, `onClose` logs, and the pending
  `connect()` promise rejects with `Connection closed: <code> <reason>`.

Neither `error` nor `close` touches the listener of `execute` or its promise: the
source registers no error/close handling for a pending `execute`. -/
def stepEvent (s : ComputerState) (e : WsEvent) : ComputerState :=
  match e with
  | .opened =>
    { s with ws := some .opened, connectPromise := resolveConnect s.connectPromise }
  | .message m =>
    let s := onMessage s m
    match s.executePromise with
    | some .pending => { s with executePromise := some (.resolved m) }
    | _ => s
  | .error err =>
    { s with connectPromise := rejectConnect err s.connectPromise }
  | .close code reason =>
    { s with ws := some .closed,
             connectPromise :=
               rejectConnect
                 ("Connection closed: " ++ toString code ++ " " ++ reason)
                 s.connectPromise }

/-- Process a sequence of WebSocket events in arrival order. -/
def processEvents (s : ComputerState) (events : List WsEvent) : ComputerState :=
  List.foldl stepEvent s events

/-- The synchronous part of `connect()` (`src/lib/computer.ts` lines 125-150):
a fresh WebSocket in CONNECTING state and a pending promise that only the
socket events can settle. -/
def connectCall (s : ComputerState) : ComputerState :=
  { s with ws := some .connecting, connectPromise := some .pending }

/-- A successful `connect()`: the synchronous part followed by the `open`
event of the socket, which is the only signal on which the promise resolves. -/
def connectResolved (s : ComputerState) : ComputerState :=
  stepEvent (connectCall s) .opened

/-- Embedding of `ensureConnected` (`src/lib/computer.ts` lines 197-201) on the successful
path: transparently `connect()` first when not connected. -/
def ensureConnected (s : ComputerState) : ComputerState :=
  if isConnected s then s else connectResolved s

/-- Embedding of `send` (`src/lib/computer.ts` lines 152-163): throws
`WebSocket is not connected` unless the socket is OPEN, otherwise logs and
transmits the serialized action. -/
def sendWS (s : ComputerState) (data : Json) : Except String ComputerState :=
  if isConnected s then .ok { s with sentLog := s.sentLog ++ [data] }
  else .error "WebSocket is not connected"

/-- The state transformation performed by a call to `execute(command)`
(`src/lib/computer.ts` lines 165-179) up to the point where the returned
promise is awaiting the next inbound frame: ensure the connection, register
the one-shot `message` listener (a pending promise) and send the command.
Resolution of that promise is driven entirely by later events. -/
def executeCall (s : ComputerState) (command : Json) : Except String ComputerState :=
  let s1 := ensureConnected s
  (sendWS s1 command).map (fun s2 => { s2 with executePromise := some .pending })

/-- The tool-result shape that `ComputerLogger` manipulates (the historical
`ToolResult` interface in `src/unnamed/part_001`, which is the shape whose
`result` / `timestamp` fields `src/lib/utils/computerLogger.ts` reads):
`output` is `any`, the other fields optional strings. -/
structure LoggedToolResult where
  output : Json
  base64_image : Option String
  screenshot_file : Option String
  error : Option String

/-- The historical `ComputerMessage` shape consumed by the logger
(`src/unnamed/part_001`). -/
structure LoggedComputerMessage where
  session_id : String
  timestamp : Int
  result : LoggedToolResult
  error : Option String

/-- The record appended to `conversation.jsonl`: the message spread into a
fresh object, with an optional top-level `screenshot_file` reference (the
`ComputerMessageLog` extension written by `logReceive`). -/
structure ConversationRecord where
  session_id : String
  timestamp : Int
  result : LoggedToolResult
  error : Option String
  screenshot_file : Option String

/-- The screenshot file path `logScreenshot` builds:
`path.join(runDir, "screenshot_" + message.timestamp + ".png")`. -/
def screenshotFileName (runDir : String) (timestamp : Int) : String :=
  runDir ++ "/screenshot_" ++ toString timestamp ++ ".png"

/-- Embedding of `logScreenshot` (`src/lib/utils/computerLogger.ts` lines 61-73): when
`message.result.base64_image` is truthy, write the decoded image to a file
and return its path; otherwise return null. -/
def logScreenshotFile (runDir : String) (message : LoggedComputerMessage) :
    Option String :=
  match message.result.base64_image with
  | some img => if !img.isEmpty then some (screenshotFileName runDir message.timestamp) else none
  | none => none

/-- The record built by `logReceive` (`src/lib/utils/computerLogger.ts` lines
46-59): spread the message, attach the screenshot file reference when one was
written, and delete `result.base64_image` before appending to the
conversation log. -/
def logReceiveRecord (runDir : String) (message : LoggedComputerMessage) :
    ConversationRecord :=
  let screenshot_file := logScreenshotFile runDir message
  { session_id := message.session_id,
    timestamp := message.timestamp,
    result := { message.result with base64_image := none },
    error := message.error,
    screenshot_file := screenshot_file }

lemma getField_payload_tool (name : String) (input : Json) :
    (payloadOf name input).getField "tool" = some (.str name) := rfl

lemma getField_payload_params (name : String) (input : Json) :
    (payloadOf name input).getField "params" = some input := rfl

lemma isLiteral_eq {lit : String} {o : Option Json} (h : isLiteral lit o = true) :
    o = some (.str lit) := by
  rcases o with _ | j
  · simp [isLiteral] at h
  · rcases j with _ | b | n | s | elems | fields <;> simp [isLiteral] at h
    subst h; rfl

lemma literal_unique {l1 l2 : String} {o : Option Json}
    (h1 : isLiteral l1 o = true) (h2 : isLiteral l2 o = true) : l1 = l2 := by
  have e1 := isLiteral_eq h1
  have e2 := isLiteral_eq h2
  rw [e1] at e2
  injection e2 with e2
  injection e2

lemma not_bash_and_computer (v : Json) (hb : bashMatches v = true)
    (hc : computerMatches v = true) : False := by
  rw [bashMatches, Bool.and_eq_true] at hb
  rw [computerMatches, Bool.and_eq_true] at hc
  exact absurd (literal_unique hb.1 hc.1) (by decide)

lemma not_bash_and_edit (v : Json) (hb : bashMatches v = true)
    (he : editMatches v = true) : False := by
  rw [bashMatches, Bool.and_eq_true] at hb
  rw [editMatches, Bool.and_eq_true] at he
  exact absurd (literal_unique hb.1 he.1) (by decide)

lemma not_computer_and_edit (v : Json) (hc : computerMatches v = true)
    (he : editMatches v = true) : False := by
  rw [computerMatches, Bool.and_eq_true] at hc
  rw [editMatches, Bool.and_eq_true] at he
  exact absurd (literal_unique hc.1 he.1) (by decide)

/-- Claim C4: for every payload whose tool name is not one of the fixed-union
names (`bash`, `computer`, `str_replace_editor`), if the tool name is a
non-empty string and params is a key-value mapping, validation falls through
to the permissive extension schema and succeeds; and for every payload with
an empty or missing tool name, validation fails. -/
theorem validate_unknown_tool_fallthrough :
    (∀ (name : String) (input : Json),
        name ≠ "bash" → name ≠ "computer" → name ≠ "str_replace_editor" →
        name.isEmpty = false → input.isObj = true →
        validate (payloadOf name input) = .extension) ∧
    (∀ fields : List (String × Json),
        lookupField fields "tool" = none ∨ lookupField fields "tool" = some (.str "") →
        validate (Json.obj fields) = .failure) := by
  constructor
  · intro name input h1 h2 h3 h4 h5
    rcases input with _ | b | n | s | elems | pfields <;> simp [Json.isObj] at h5
    simp [validate, actionMatches, bashMatches, computerMatches, editMatches,
      unknownMatches, getField_payload_tool, getField_payload_params,
      isLiteral, nonEmptyStrOpt, isRecordOpt, h1, h2, h3, h4]
  · intro fields h
    have hg : (Json.obj fields).getField "tool" = lookupField fields "tool" := rfl
    rcases h with h | h <;>
      simp [validate, actionMatches, bashMatches, computerMatches, editMatches,
        unknownMatches, hg, h, isLiteral, nonEmptyStrOpt, String.isEmpty_iff]

/-- Concrete instance of `validate_unknown_tool_fallthrough`. -/
def c4Name : String := "my_tool"

/-- Concrete params object for the C4 witness. -/
def c4Input : Json := .obj [("x", .num 1)]

theorem validate_unknown_tool_fallthrough_witness :
    validate (payloadOf c4Name c4Input) = .extension ∧
    validate (Json.obj [("tool", Json.str "")]) = .failure := by
  constructor
  · exact validate_unknown_tool_fallthrough.1 c4Name c4Input
      (by decide) (by decide) (by decide) rfl rfl
  · exact validate_unknown_tool_fallthrough.2 [("tool", Json.str "")] (Or.inr rfl)

/-- A payload that matches both the fixed `bash` variant and the permissive
extension schema. -/
def c5Payload : Json := payloadOf "bash" (.obj [("command", .str "echo hello")])

/-- How many of the four Action-model variants (bash, computer,
str_replace_editor, permissive extension) accept a payload. -/
def variantMatchCount (v : Json) : Nat :=
  (if bashMatches v then 1 else 0) + (if computerMatches v then 1 else 0) +
    (if editMatches v then 1 else 0) + (if unknownMatches v then 1 else 0)

/-- Claim C5 counterexample: a well-formed bash payload is matched by two
variants of the Action model (the `bash` variant and the permissive extension
variant), so it is not the case that exactly one variant matches every
payload. -/
theorem action_exactly_one_variant_cex :
    bashMatches c5Payload = true ∧ unknownMatches c5Payload = true ∧
    variantMatchCount c5Payload = 2 := ⟨rfl, rfl, rfl⟩

/-- Claim C5 (amended): at most one variant of the fixed action union
matches any payload (the permissive extension variant may overlap the fixed
ones), and validation attempts the fixed-action union before the permissive
extension schema, reporting a terminal validation failure exactly when both
reject. -/
theorem action_fixed_variants_disjoint_validation_order :
    (∀ v : Json,
        (if bashMatches v then 1 else 0) + (if computerMatches v then 1 else 0) +
          (if editMatches v then 1 else 0) ≤ 1) ∧
    (∀ v : Json, validate v = .action ↔ actionMatches v = true) ∧
    (∀ v : Json, validate v = .extension ↔ (actionMatches v = false ∧ unknownMatches v = true)) ∧
    (∀ v : Json, validate v = .failure ↔ (actionMatches v = false ∧ unknownMatches v = false)) := by
  refine ⟨?_, ?_, ?_, ?_⟩
  · intro v
    rcases hb : bashMatches v <;> rcases hc : computerMatches v <;>
      rcases he : editMatches v <;> simp <;>
      first
        | exact not_bash_and_computer v hb hc
        | exact not_bash_and_edit v hb he
        | exact not_computer_and_edit v hc he
  · intro v
    rcases h1 : actionMatches v <;> rcases h2 : unknownMatches v <;>
      simp [validate, h1, h2]
  · intro v
    rcases h1 : actionMatches v <;> rcases h2 : unknownMatches v <;>
      simp [validate, h1, h2]
  · intro v
    rcases h1 : actionMatches v <;> rcases h2 : unknownMatches v <;>
      simp [validate, h1, h2]

/-- Claim C6: action validation is total and deterministic over the whole
JSON universe: it always returns one of the three discriminated outcomes
(success via the fixed union, success via the extension schema, or failure)
and never anything else, and validating the same input twice returns the same
result (the embedding of `Action.safeParse` / `UnknownAction.safeParse` is a
pure function). -/
theorem validate_total_and_deterministic :
    ∀ v : Json,
      (validate v = .action ∨ validate v = .extension ∨ validate v = .failure) ∧
      validate v = validate v := by
  intro v
  refine ⟨?_, rfl⟩
  rcases h1 : actionMatches v <;> rcases h2 : unknownMatches v <;>
    simp [validate, h1, h2]

/-- A tool result whose `error` field is non-null but empty: JavaScript
truthiness sends it down the non-error branch of `makeToolResult`. -/
def c10EmptyError : ToolResult :=
  { output := some "hi", error := some "", base64_image := none, system := none }

/-- Claim C10 counterexample: a `ToolResult` with the non-null error `""` is
converted with `is_error = false` and the output text as content, not with
`is_error = true` and the error text, because `makeToolResult` tests
JavaScript truthiness (`if (result.error)`) rather than null-ness. -/
theorem makeToolResult_nonnull_error_cex :
    c10EmptyError.error ≠ none ∧
    makeToolResult c10EmptyError "toolu_cex" =
      { tool_use_id := "toolu_cex", content := .items [ContentItem.text "hi"],
        is_error := some false } := by
  exact ⟨by simp [c10EmptyError], rfl⟩

/-- Claim C10 (amended): for every `ToolResult` whose `error` is a non-empty
(truthy) string, `makeToolResult` returns a block with `is_error = true` whose
content is exactly one text block containing that error string, omitting
output and image even when non-null; for a null or empty `error`, it returns
`is_error = false` with the truthy output text (if any) followed by the
truthy image (if any). -/
theorem makeToolResult_truthy_error_shape :
    ∀ (result : ToolResult) (toolUseId : String),
      (∀ e : String, result.error = some e → e.isEmpty = false →
        makeToolResult result toolUseId =
          { tool_use_id := toolUseId, content := .items [ContentItem.text e],
            is_error := some true }) ∧
      ((result.error = none ∨ result.error = some "") →
        makeToolResult result toolUseId =
          { tool_use_id := toolUseId, content := .items (nonErrorContent result),
            is_error := some false }) := by
  intro result toolUseId
  constructor
  · intro e he hne
    simp [makeToolResult, he, hne]
  · intro h
    rcases h with h | h <;> simp [makeToolResult, h, String.isEmpty_iff]

/-- A tool result with a truthy error, for the C10 witness. -/
def c10Boom : ToolResult :=
  { output := some "ignored", error := some "boom", base64_image := some "imgdata",
    system := none }

theorem makeToolResult_truthy_error_shape_witness :
    makeToolResult c10Boom "toolu_w1" =
      { tool_use_id := "toolu_w1", content := .items [ContentItem.text "boom"],
        is_error := some true } ∧
    makeToolResult c10EmptyError "toolu_w2" =
      { tool_use_id := "toolu_w2", content := .items (nonErrorContent c10EmptyError),
        is_error := some false } := by
  constructor
  · exact (makeToolResult_truthy_error_shape c10Boom "toolu_w1").1 "boom" rfl rfl
  · exact (makeToolResult_truthy_error_shape c10EmptyError "toolu_w2").2 (Or.inr rfl)

/-- Claim C9: the record `logReceive` appends to the conversation log equals
the received message with the base64 screenshot payload removed from
`result`, a screenshot file reference attached exactly when a screenshot
payload was present (truthy), and every other field unchanged. -/
theorem logReceive_record_shape :
    ∀ (runDir : String) (m : LoggedComputerMessage),
      (logReceiveRecord runDir m).session_id = m.session_id ∧
      (logReceiveRecord runDir m).timestamp = m.timestamp ∧
      (logReceiveRecord runDir m).error = m.error ∧
      (logReceiveRecord runDir m).result.output = m.result.output ∧
      (logReceiveRecord runDir m).result.error = m.result.error ∧
      (logReceiveRecord runDir m).result.screenshot_file = m.result.screenshot_file ∧
      (logReceiveRecord runDir m).result.base64_image = none ∧
      (strTruthy m.result.base64_image = true →
        (logReceiveRecord runDir m).screenshot_file =
          some (screenshotFileName runDir m.timestamp)) ∧
      (strTruthy m.result.base64_image = false →
        (logReceiveRecord runDir m).screenshot_file = none) := by
  intro runDir m
  refine ⟨rfl, rfl, rfl, rfl, rfl, rfl, rfl, ?_, ?_⟩
  · intro h
    rcases hb : m.result.base64_image with _ | img <;> rw [hb] at h <;>
      simp [strTruthy] at h
    simp [logReceiveRecord, logScreenshotFile, hb, h]
  · intro h
    rcases hb : m.result.base64_image with _ | img
    · simp [logReceiveRecord, logScreenshotFile, hb]
    · rw [hb] at h
      simp [strTruthy] at h
      simp [logReceiveRecord, logScreenshotFile, hb, h]

/-- A received message with a truthy screenshot payload, for the C9 witness. -/
def c9Message : LoggedComputerMessage :=
  { session_id := "sess_1", timestamp := 1700000000000,
    result := { output := .str "took screenshot", base64_image := some "iVBORw0KGgo",
                screenshot_file := none, error := none },
    error := none }

theorem logReceive_record_shape_witness :
    (logReceiveRecord "computer_logs/run1" c9Message).result.base64_image = none ∧
    (logReceiveRecord "computer_logs/run1" c9Message).screenshot_file =
      some (screenshotFileName "computer_logs/run1" c9Message.timestamp) := by
  constructor
  · exact (logReceive_record_shape "computer_logs/run1" c9Message).2.2.2.2.2.2.1
  · exact (logReceive_record_shape "computer_logs/run1" c9Message).2.2.2.2.2.2.2.1 rfl

lemma isConnected_connectResolved (s : ComputerState) :
    isConnected (connectResolved s) = true := rfl

/-- Claim C7: for every action, calling `execute()` on a session that is not
connected first establishes the connection (via `ensureConnected`) and then
leaves the session in exactly the state produced by an explicit `connect()`
followed by `execute()` of the same action - so the subsequent event-driven
resolution, and hence the result, is identical. -/
theorem execute_transparently_connects :
    ∀ (s : ComputerState) (command : Json),
      isConnected s = false →
      executeCall s command = executeCall (connectResolved s) command := by
  intro s command h
  simp [executeCall, ensureConnected, h, isConnected_connectResolved]

theorem execute_transparently_connects_witness :
    executeCall initialComputerState c5Payload =
      executeCall (connectResolved initialComputerState) c5Payload := by
  exact execute_transparently_connects initialComputerState c5Payload rfl

/-- The command whose `execute()` call is pending when the channel closes. -/
def c1Command : Json := payloadOf "computer" (.obj [("action", .str "screenshot")])

/-- The session state right after `execute(c1Command)` on a connected session:
the command has been sent and the one-shot message listener is registered,
i.e. the `execute()` promise is pending. -/
def c1Pending : ComputerState :=
  { connectResolved initialComputerState with
      executePromise := some .pending, sentLog := [c1Command] }

lemma stepEvent_nonmessage_executePromise (s : ComputerState) (e : WsEvent)
    (h : e.isMessage = false) :
    (stepEvent s e).executePromise = s.executePromise := by
  cases e <;> simp [WsEvent.isMessage] at h ⊢ <;> rfl

lemma processEvents_nonmessage_executePromise :
    ∀ (events : List WsEvent) (s : ComputerState),
      (∀ e ∈ events, e.isMessage = false) →
      (processEvents s events).executePromise = s.executePromise := by
  intro events
  induction events with
  | nil => intro s _; rfl
  | cons e rest ih =>
    intro s h
    have he : e.isMessage = false := h e (List.mem_cons_self e rest)
    have hrest : ∀ x ∈ rest, x.isMessage = false :=
      fun x hx => h x (List.mem_cons_of_mem e hx)
    calc (processEvents s (e :: rest)).executePromise
        = (processEvents (stepEvent s e) rest).executePromise := rfl
      _ = (stepEvent s e).executePromise := ih (stepEvent s e) hrest
      _ = s.executePromise := stepEvent_nonmessage_executePromise s e he

/-- Claim C1: the session state `c1Pending` arises from a real `execute()`
call on a connected session, and once in that state no sequence of
non-message channel events - closes and errors included - ever settles the
`execute()` promise: it stays pending (it is neither resolved nor rejected),
contrary to the claim that channel closure rejects it. Only the `connect()`
promise has close/error handlers in the source. -/
theorem execute_promise_unsettled_on_close :
    executeCall (connectResolved initialComputerState) c1Command = .ok c1Pending ∧
    ∀ events : List WsEvent,
      (∀ e ∈ events, e.isMessage = false) →
      (processEvents c1Pending events).executePromise = some .pending := by
  constructor
  · rfl
  · intro events h
    exact processEvents_nonmessage_executePromise events c1Pending h

theorem execute_promise_unsettled_on_close_witness :
    (processEvents c1Pending [WsEvent.close 1006 "abnormal closure"]).executePromise =
      some .pending := by
  apply execute_promise_unsettled_on_close.2
  intro e he
  rw [List.mem_singleton] at he
  subst he
  rfl

lemma parseMachineMetadata_system_none (sys : Option String) :
    parseMachineMetadata (systemPayloadJson sys) = none := by
  cases sys <;> rfl

lemma handleConnectionMessage_id (s : ComputerState) (m : ComputerMessage) :
    handleConnectionMessage s m = s := by
  unfold handleConnectionMessage
  rw [parseMachineMetadata_system_none]

lemma stepEvent_message_eq (s : ComputerState) (m : ComputerMessage) :
    stepEvent s (.message m) =
      (match (onMessage s m).executePromise with
        | some .pending => { onMessage s m with executePromise := some (.resolved m) }
        | _ => onMessage s m) := rfl

lemma stepEvent_message_machineMetadata (s : ComputerState) (m : ComputerMessage) :
    (stepEvent s (.message m)).machineMetadata = s.machineMetadata ∧
    (stepEvent s (.message m)).sessionId = s.sessionId := by
  rw [stepEvent_message_eq]
  rw [show onMessage s m =
        { s with updatedAt := some m.metadata.response_timestamp } from
      handleConnectionMessage_id _ m]
  rcases hp : s.executePromise with _ | p
  · simp [hp]
  · rcases p <;> simp [hp]

/-- Claim C2: machine metadata is never promoted at all, let alone exactly
once. Every inbound frame is parsed by `ComputerMessage.parse`, whose
`tool_result.system` is `z.string().nullable()`, and `handleConnectionMessage`
then applies the `MachineMetadata` object schema directly to that string (or
null) without decoding it, so the parse fails on every frame and neither the
machine metadata nor the session id is ever written. -/
theorem machineMetadata_never_promoted :
    (∀ sys : Option String, parseMachineMetadata (systemPayloadJson sys) = none) ∧
    (∀ (frames : List ComputerMessage) (s : ComputerState),
      (processEvents s (frames.map WsEvent.message)).machineMetadata = s.machineMetadata ∧
      (processEvents s (frames.map WsEvent.message)).sessionId = s.sessionId) ∧
    (∀ frames : List ComputerMessage,
      (processEvents (connectResolved initialComputerState)
        (frames.map WsEvent.message)).machineMetadata = none) := by
  have main : ∀ (frames : List ComputerMessage) (s : ComputerState),
      (processEvents s (frames.map WsEvent.message)).machineMetadata = s.machineMetadata ∧
      (processEvents s (frames.map WsEvent.message)).sessionId = s.sessionId := by
    intro frames
    induction frames with
    | nil => intro s; exact ⟨rfl, rfl⟩
    | cons f rest ih =>
      intro s
      have h1 := stepEvent_message_machineMetadata s f
      have h2 := ih (stepEvent s (.message f))
      exact ⟨h2.1.trans h1.1, h2.2.trans h1.2⟩
  refine ⟨parseMachineMetadata_system_none, main, ?_⟩
  intro frames
  exact (main frames (connectResolved initialComputerState)).1

lemma processTurn_foldl (env : Dispatch) :
    ∀ (turn : OracleTurn) (acc : List ToolResultBlock),
      turn.foldl
        (fun acc c =>
          match c with
          | ContentBlock.toolUse b => acc ++ [handleToolRequest env b]
          | ContentBlock.text _ => acc) acc =
        acc ++ (toolUseBlocks turn).map (handleToolRequest env) := by
  intro turn
  induction turn with
  | nil => intro acc; simp [toolUseBlocks]
  | cons c rest ih =>
    intro acc
    cases c with
    | text t =>
      simp only [List.foldl_cons]
      rw [ih acc]
      simp [toolUseBlocks, List.filterMap_cons]
    | toolUse b =>
      simp only [List.foldl_cons]
      rw [ih (acc ++ [handleToolRequest env b])]
      simp [toolUseBlocks, List.filterMap_cons]

lemma processTurn_eq_map (env : Dispatch) (turn : OracleTurn) :
    processTurn env turn = (toolUseBlocks turn).map (handleToolRequest env) := by
  have h := processTurn_foldl env turn []
  simpa [processTurn] using h

lemma length_processTurn_pos (env : Dispatch) (turn : OracleTurn) :
    0 < (processTurn env turn).length ↔ hasToolCalls turn = true := by
  rw [processTurn_eq_map, List.length_map]
  induction turn with
  | nil => simp [toolUseBlocks, hasToolCalls]
  | cons c rest ih =>
    cases c with
    | text t =>
      simpa [toolUseBlocks, hasToolCalls, ContentBlock.isToolUse,
        List.filterMap_cons] using ih
    | toolUse b =>
      simp [toolUseBlocks, hasToolCalls, ContentBlock.isToolUse,
        List.filterMap_cons]

lemma useComputerLoop_run (env : Dispatch) :
    ∀ (pre : List OracleTurn) (t : OracleTurn) (rest : List OracleTurn)
      (ms : List Message),
      pre.all hasToolCalls = true → hasToolCalls t = false →
      useComputerLoop env (pre ++ t :: rest) ms =
        some (ms ++
          (pre.flatMap (fun p =>
            [Message.assistant p, Message.user (.results (processTurn env p))]) ++
            [Message.assistant t])) := by
  intro pre
  induction pre with
  | nil =>
    intro t rest ms _ ht
    have hlen : ¬ 0 < (processTurn env t).length := by
      rw [length_processTurn_pos]; simp [ht]
    simp [useComputerLoop, hlen]
  | cons p pre ih =>
    intro t rest ms hall ht
    rw [List.all_cons, Bool.and_eq_true] at hall
    have hlen : 0 < (processTurn env p).length := by
      rw [length_processTurn_pos]; exact hall.1
    have step : useComputerLoop env ((p :: pre) ++ t :: rest) ms =
        useComputerLoop env (pre ++ t :: rest)
          (ms ++ [Message.assistant p] ++
            [Message.user (.results (processTurn env p))]) := by
      simp only [List.cons_append, useComputerLoop]
      rw [if_pos hlen]
      rfl
    rw [step, ih t rest _ hall.2 ht]
    simp [List.flatMap_cons, List.append_assoc]

/-- The environment driving the concrete two-turn scenarios: direct execution
always returns the output `file.txt`, the MCP side channel returns an empty
non-error result. -/
def snapshotEnv : Dispatch :=
  { exec := fun _ =>
      { output := some "file.txt", error := none, base64_image := none, system := none },
    mcp := fun _ _ => { content := "[]", isError := false } }

/-- A valid bash tool call intent. -/
def snapshotBlock : ToolUseBlock :=
  { id := "toolu_1", name := "bash", input := .obj [("command", .str "ls")] }

/-- An oracle turn containing exactly one (valid) tool-call intent. -/
def snapshotTurn1 : OracleTurn := [ContentBlock.toolUse snapshotBlock]

/-- A two-turn oracle script: first a tool-using turn, then a turn with zero
tool calls. -/
def snapshotScript : List OracleTurn := [snapshotTurn1, []]

/-- The user task seeding the concrete scenario. -/
def snapshotTask : String := "list files"

/-- The tool result the environment produces for `snapshotBlock`. -/
def snapshotResult : ToolResultBlock :=
  { tool_use_id := "toolu_1", content := .items [ContentItem.text "file.txt"],
    is_error := some false }

/-- Claim C3: the current `useComputer` loop terminates at exactly the first
oracle turn with zero tool-call intents, appending for every earlier turn a
tool-result turn whose entries are exactly the per-intent results in intent
order; but the historical snapshot of the loop in `src/unnamed/part_002`
(whose `while` body ends in `return messages`) instead returns right after
the first turn that produced tool results - on the two-turn script below it
never reaches the zero-tool-call turn. -/
theorem useComputer_terminates_at_first_toolless_turn :
    (∀ (env : Dispatch) (task : String) (pre : List OracleTurn) (t : OracleTurn)
        (rest : List OracleTurn),
      pre.all hasToolCalls = true → hasToolCalls t = false →
      useComputer env task (pre ++ t :: rest) =
        some (expectedConversation env task pre t)) ∧
    (∀ (env : Dispatch) (turn : OracleTurn),
      processTurn env turn = (toolUseBlocks turn).map (handleToolRequest env)) ∧
    (useComputerSnapshotLoop snapshotEnv snapshotScript
        [Message.user (.task snapshotTask)] =
      some (.earlyReturn
        [Message.user (.task snapshotTask),
         Message.assistant snapshotTurn1,
         Message.user (.results [snapshotResult])])) := by
  refine ⟨?_, processTurn_eq_map, rfl⟩
  intro env task pre t rest hall ht
  have h := useComputerLoop_run env pre t rest [Message.user (.task task)] hall ht
  simpa [useComputer, expectedConversation] using h

theorem useComputer_terminates_at_first_toolless_turn_witness :
    useComputer snapshotEnv snapshotTask ([snapshotTurn1] ++ [] :: []) =
      some (expectedConversation snapshotEnv snapshotTask [snapshotTurn1] []) := by
  exact useComputer_terminates_at_first_toolless_turn.1 snapshotEnv snapshotTask
    [snapshotTurn1] [] [] rfl rfl

/-- Claim C8: a turn produces exactly one result per tool-call intent (so a
single unresolvable intent aborts nothing), and every intent matching neither
the fixed action union nor the permissive extension schema is converted into
an error-flagged result whose text names the unrecognized tool. -/
theorem unresolvable_tool_call_error_result :
    ∀ (env : Dispatch) (turn : OracleTurn),
      (processTurn env turn).length = (toolUseBlocks turn).length ∧
      ∀ b ∈ toolUseBlocks turn,
        actionMatches (payloadOf b.name b.input) = false →
        unknownMatches (payloadOf b.name b.input) = false →
        handleToolRequest env b =
          { tool_use_id := b.id,
            content := .items
              [ContentItem.text ("Tool " ++ b.name ++ " failed is invalid")],
            is_error := some true } := by
  intro env turn
  constructor
  · rw [processTurn_eq_map, List.length_map]
  · intro b _ h1 h2
    have hne : ("Tool " ++ b.name ++ " failed is invalid").isEmpty = false := by
      rw [Bool.eq_false_iff]
      intro hcontra
      have h3 := (String.isEmpty_iff _).mp hcontra
      have h4 : ("Tool " ++ b.name ++ " failed is invalid").data = "".data := by
        rw [h3]
      simp [String.data_append] at h4
    simp [handleToolRequest, h1, h2, convertToolResult, makeToolResult, hne]

/-- Environment for the C8 witness scenario. -/
def c8Env : Dispatch :=
  { exec := fun _ =>
      { output := some "ok", error := none, base64_image := none, system := none },
    mcp := fun _ _ => { content := "[]", isError := false } }

/-- A valid bash intent in the C8 witness turn. -/
def c8Bash : ToolUseBlock :=
  { id := "toolu_a", name := "bash", input := .obj [("command", .str "pwd")] }

/-- An intent that matches neither schema: its params are not a key-value
mapping, so even the permissive extension schema rejects it. -/
def c8Bad : ToolUseBlock := { id := "toolu_b", name := "mystery", input := .null }

/-- An oracle turn with narrative text, one valid intent and one unresolvable
intent. -/
def c8Turn : OracleTurn :=
  [ContentBlock.text "working on it", ContentBlock.toolUse c8Bash,
   ContentBlock.toolUse c8Bad]

theorem unresolvable_tool_call_error_result_witness :
    (processTurn c8Env c8Turn).length = (toolUseBlocks c8Turn).length ∧
    handleToolRequest c8Env c8Bad =
      { tool_use_id := "toolu_b",
        content := .items [ContentItem.text "Tool mystery failed is invalid"],
        is_error := some true } := by
  refine ⟨(unresolvable_tool_call_error_result c8Env c8Turn).1, ?_⟩
  have hmem : c8Bad ∈ toolUseBlocks c8Turn := by
    have h : toolUseBlocks c8Turn = [c8Bash, c8Bad] := rfl
    rw [h]
    exact List.mem_cons_of_mem _ (List.mem_cons_self _ _)
  exact (unresolvable_tool_call_error_result c8Env c8Turn).2 c8Bad hmem rfl rfl
